import Mathlib

/-!
# Verification of the adaptive-assessment session core

Shallow embedding of `src/backend/models/session.py` and the `/start` and
`/answer` handlers of `src/backend/app.py`.

Modelling conventions:
* Python `float` scores are modelled by `ℚ` (exact arithmetic).
* `datetime.now()` is modelled by an explicit `now : Nat` argument threaded
  into every operation that reads the clock; the two consecutive
  `datetime.now()` calls in `reset` are modelled by the same instant.
* Python dictionaries used as evaluation records are modelled by the
  structure `EvalRecord` holding exactly the keys the code reads.
* Questions are opaque payloads, modelled by `String`.
* Each Python method that can assign to attributes of `self` is translated
  as a function from the old `SessionState` to the new one; a method body
  with no attribute assignment returns the state it was given.
-/

/-- A question payload, opaque to the session core. -/
abbrev Question := String

/-- Equality of `Except` values is decidable when it is on both sides;
needed to evaluate the embedded fallible operations on closed inputs. -/
instance {ε α : Type} [DecidableEq ε] [DecidableEq α] :
    DecidableEq (Except ε α) := fun a b =>
  match a, b with
  | .error x, .error y =>
    if h : x = y then isTrue (by rw [h])
    else isFalse (fun hc => h (by cases hc; rfl))
  | .error _, .ok _ => isFalse (fun hc => Except.noConfusion hc)
  | .ok _, .error _ => isFalse (fun hc => Except.noConfusion hc)
  | .ok x, .ok y =>
    if h : x = y then isTrue (by rw [h])
    else isFalse (fun hc => h (by cases hc; rfl))

/-- One evaluation record, the dictionary appended to `session.history`;
`summary` reads the keys `accuracy`, `explanation_score`, `final_score`. -/
structure EvalRecord where
  accuracy : ℚ
  explanation_score : ℚ
  final_score : ℚ
  misconception : Option String
deriving DecidableEq, Repr

/-- `src/backend/models/session.py` line 4: `MAX_QUESTIONS = 15`. -/
def MAX_QUESTIONS : Int := 15

/-- `src/backend/models/session.py` line 5: `MIN_QUESTIONS = 5`. -/
def MIN_QUESTIONS : Int := 5

/-- The attributes of `SessionState` (`src/backend/models/session.py`). -/
structure SessionState where
  max_questions : Int
  bloom_level : Int
  difficulty : Int
  question_number : Int
  current_question : Option Question
  finished : Bool
  history : List EvalRecord
  last_misconception : Option String
  created_at : Nat
  last_activity : Nat
deriving DecidableEq, Repr

namespace SessionState

/-- `SessionState.reset` (lines 25–35): restore every mutable attribute to
its initial value; `max_questions` is untouched. -/
def reset (s : SessionState) (now : Nat) : SessionState :=
  { s with
    bloom_level := 1
    difficulty := 1
    question_number := 1
    current_question := none
    finished := false
    history := []
    last_misconception := none
    created_at := now
    last_activity := now }

/-- The error raised by `SessionState.__init__` when `max_questions` is out
of bounds (`ValueError`, the spec's `InvalidConfiguration`). -/
inductive InitError where
  | invalidConfiguration
deriving DecidableEq, Repr

/-- `SessionState.__init__` (lines 9–23): validate
`MIN_QUESTIONS <= max_questions <= MAX_QUESTIONS`, store `max_questions`,
then `reset`. The record passed to `reset` carries placeholder values for
the attributes `reset` assigns, mirroring that Python creates them there. -/
def init (max_questions : Int) (now : Nat) : Except InitError SessionState :=
  if ¬(MIN_QUESTIONS ≤ max_questions ∧ max_questions ≤ MAX_QUESTIONS) then
    .error .invalidConfiguration
  else
    .ok (reset
      { max_questions := max_questions
        bloom_level := 0
        difficulty := 0
        question_number := 0
        current_question := none
        finished := false
        history := []
        last_misconception := none
        created_at := 0
        last_activity := 0 } now)

/-- `SessionState.record_evaluation` (lines 37–45): append `e` to
`history` and refresh `last_activity`. -/
def record_evaluation (s : SessionState) (e : EvalRecord) (now : Nat) :
    SessionState :=
  { s with history := s.history ++ [e], last_activity := now }

end SessionState

/-- The dictionary returned by `SessionState.summary`. -/
structure Summary where
  final_score : ℚ
  average_accuracy : ℚ
  average_explanation : ℚ
  responses : List EvalRecord
deriving DecidableEq, Repr

namespace SessionState

/-- `SessionState.summary` (lines 47–72) as a state transformer: the pair
is (returned dictionary, state of `self` after the call). The method body
assigns to no attribute, so both branches return the incoming state. -/
def summaryOp (s : SessionState) : Summary × SessionState :=
  if s.history.isEmpty then
    ({ final_score := 0
       average_accuracy := 0
       average_explanation := 0
       responses := [] }, s)
  else
    let n : ℚ := s.history.length
    ({ final_score := (s.history.map EvalRecord.final_score).sum / n
       average_accuracy := (s.history.map EvalRecord.accuracy).sum / n
       average_explanation := (s.history.map EvalRecord.explanation_score).sum / n
       responses := s.history }, s)

/-- The value returned by `SessionState.summary`. -/
def summary (s : SessionState) : Summary := (s.summaryOp).1

end SessionState

/-- A concrete evaluation record used in closed instances. -/
def sampleRecord : EvalRecord :=
  { accuracy := 1/2, explanation_score := 1/4, final_score := 3/4,
    misconception := none }

/-- A second concrete evaluation record used in closed instances. -/
def sampleRecord2 : EvalRecord :=
  { accuracy := 1, explanation_score := 3/4, final_score := 1/4,
    misconception := some "off-by-one" }

/-- A concrete session holding one history record. -/
def sampleSession : SessionState :=
  { max_questions := 15
    bloom_level := 2
    difficulty := 3
    question_number := 2
    current_question := some "What does len do?"
    finished := false
    history := [sampleRecord]
    last_misconception := none
    created_at := 0
    last_activity := 0 }

/-- C1: `summary` aggregates are the arithmetic means over `history` of
`final_score`, `accuracy`, `explanation_score` whenever the history is
non-empty. -/
theorem summary_means (s : SessionState) (h : s.history ≠ []) :
    s.summary.final_score
        = (s.history.map EvalRecord.final_score).sum / s.history.length
      ∧ s.summary.average_accuracy
        = (s.history.map EvalRecord.accuracy).sum / s.history.length
      ∧ s.summary.average_explanation
        = (s.history.map EvalRecord.explanation_score).sum / s.history.length := by
  have hne : ¬s.history.isEmpty := by
    simpa [List.isEmpty_iff] using h
  simp [SessionState.summary, SessionState.summaryOp, hne]

/-- C1 witness: the means theorem instantiated at a session with two
history records. -/
theorem summary_means_witness :
    (sampleSession.record_evaluation sampleRecord2 7).history ≠ []
      ∧ (sampleSession.record_evaluation sampleRecord2 7).summary.final_score
          = ((sampleSession.record_evaluation sampleRecord2 7).history.map
              EvalRecord.final_score).sum
            / (sampleSession.record_evaluation sampleRecord2 7).history.length :=
  ⟨by decide,
   (summary_means (sampleSession.record_evaluation sampleRecord2 7)
      (by decide)).1⟩

/-- C2: on an empty history, `summary` returns all-zero aggregates and an
empty response list (the division-by-zero guard branch). -/
theorem summary_empty (s : SessionState) (h : s.history = []) :
    s.summary = { final_score := 0
                  average_accuracy := 0
                  average_explanation := 0
                  responses := [] } := by
  simp [SessionState.summary, SessionState.summaryOp, h]

/-- C2 witness: the empty-history theorem instantiated at a freshly reset
session. -/
theorem summary_empty_witness :
    (sampleSession.reset 3).history = []
      ∧ (sampleSession.reset 3).summary
          = { final_score := 0
              average_accuracy := 0
              average_explanation := 0
              responses := [] } :=
  ⟨rfl, summary_empty (sampleSession.reset 3) rfl⟩

/-- C8: the `responses` list returned by `summary` is the session's full
`history`, in order and intact, in both branches. -/
theorem summary_responses (s : SessionState) :
    s.summary.responses = s.history := by
  by_cases h : s.history.isEmpty
  · simp [SessionState.summary, SessionState.summaryOp, h,
      List.isEmpty_iff.mp h]
  · simp [SessionState.summary, SessionState.summaryOp, h]

/-- C10: `summary` never mutates the session record: the state after the
call equals the state before it. -/
theorem summaryOp_frame (s : SessionState) : (s.summaryOp).2 = s := by
  by_cases h : s.history.isEmpty <;> simp [SessionState.summaryOp, h]

/-!
## The engine boundary and the HTTP handlers

`src/backend/app.py` imports `next_question` and `score_response` from
`engine.adaptive_engine`; that module is not part of the sources here, so
those two functions are modelled from the spec (§4.1–§4.3), with the
policy thresholds, score weights and coordinate bounds — configuration
constants the spec leaves open — taken as an explicit parameter record.
-/

/-- The spec's open policy constants (§4.2, §9): score thresholds, score
weights, misconception threshold and coordinate bounds. -/
structure PolicyConfig where
  hi : ℚ
  lo : ℚ
  wAcc : ℚ
  wExp : ℚ
  misThreshold : ℚ
  minDifficulty : Int
  maxDifficulty : Int
  maxBloom : Int
deriving Repr

/-- The external judge's output (§6): two sub-scores and an optional
misconception label. -/
structure JudgeOutput where
  accuracy : ℚ
  explanation_score : ℚ
  misconception : Option String
deriving DecidableEq, Repr

/-- Modelled from the spec: the Progression Policy `advance`
(§4.2; `engine/adaptive_engine.py` is absent from the sources). Given the
session and the latest record it returns the next
`(bloom_level, difficulty, should_finish)`: above the high threshold,
difficulty steps up and saturates before bloom level rises; below the low
threshold, difficulty steps down clamped at its floor and bloom level
holds; in the middle band both hold; termination exactly when the counter
would pass `max_questions`. -/
def advance (cfg : PolicyConfig) (s : SessionState) (r : EvalRecord) :
    Int × Int × Bool :=
  let coords : Int × Int :=
    if cfg.hi < r.final_score then
      if s.difficulty < cfg.maxDifficulty then
        (s.bloom_level, s.difficulty + 1)
      else
        (min (s.bloom_level + 1) cfg.maxBloom, s.difficulty)
    else if r.final_score < cfg.lo then
      (s.bloom_level, max (s.difficulty - 1) cfg.minDifficulty)
    else
      (s.bloom_level, s.difficulty)
  (coords.1, coords.2, s.max_questions < s.question_number)

/-- Modelled from the spec: the Evaluation Aggregator `score_response`
(§4.1; `engine/scoring.py` and `engine/adaptive_engine.py` are absent from
the sources). A judge failure (`none`) fails with `EvaluationUnavailable`
and leaves the session unmodified; on success the record combines the
sub-scores with fixed weights, a misconception is kept only below the
accuracy threshold, and the side effects are: append to `history`, update
`last_misconception` and `last_activity`, clear `current_question`, and
apply the Progression Policy. -/
def score_response (cfg : PolicyConfig) (s : SessionState)
    (judge : Option JudgeOutput) (now : Nat) :
    Option (EvalRecord × SessionState) :=
  match judge with
  | none => none
  | some j =>
    let fs : ℚ := cfg.wAcc * j.accuracy + cfg.wExp * j.explanation_score
    let mis : Option String :=
      if j.accuracy < cfg.misThreshold then j.misconception else none
    let r : EvalRecord :=
      { accuracy := j.accuracy, explanation_score := j.explanation_score,
        final_score := fs, misconception := mis }
    let adv := advance cfg s r
    some (r,
      { s with
        history := s.history ++ [r]
        last_misconception := mis
        last_activity := now
        current_question := none
        bloom_level := adv.1
        difficulty := adv.2.1
        finished := adv.2.2 })

/-- A question bank lookup (§6): coordinate plus misconception hint to an
optional question; fallback to nearby coordinates happens inside the
collaborator. -/
abbrev QuestionBank := Int → Int → Option String → Option Question

/-- Modelled from the spec: the Question Selector `next_question`
(§4.3; `engine/adaptive_engine.py` is absent from the sources). Delegates
to the bank with the session's coordinate and misconception hint; on
success sets `current_question` and increments `question_number` exactly
once; `none` models `Exhausted`. -/
def next_question (bank : QuestionBank) (s : SessionState) :
    Option Question × SessionState :=
  match bank s.bloom_level s.difficulty s.last_misconception with
  | none => (none, s)
  | some q =>
    (some q,
     { s with current_question := some q,
              question_number := s.question_number + 1 })

/-- The error outcomes of the `/answer` handler (`src/backend/app.py`
lines 134–189): HTTP 400 with its detail string for the two
`InvalidSessionState` cases, HTTP 500 for a failed evaluation
(`EvaluationUnavailable`). -/
inductive AnswerError where
  | invalidSessionState (detail : String)
  | evaluationUnavailable
deriving DecidableEq, Repr

/-- The success payload of the `/answer` handler: the evaluation, the
finished flag, and either the summary (finished) or the next question. -/
structure AnswerResponse where
  evaluation : EvalRecord
  finished : Bool
  summary : Option Summary
  next_q : Option Question
deriving DecidableEq, Repr

/-- The `/answer` handler `answer` (`src/backend/app.py` lines 134–189)
for a session already retrieved from the registry, returning the result
and the session state after the call. Mirroring the source order:
`last_activity` is updated first (line 145), then the `finished` check
(147–149), then the `current_question` check (152–154), then
`score_response` (161), then the finished/next-question split (166–183). -/
def answer (cfg : PolicyConfig) (bank : QuestionBank) (s : SessionState)
    (judge : Option JudgeOutput) (now : Nat) :
    Except AnswerError AnswerResponse × SessionState :=
  let s1 := { s with last_activity := now }
  if s1.finished then
    (.error (.invalidSessionState "Assessment already completed"), s1)
  else if s1.current_question.isNone then
    (.error (.invalidSessionState "No active question"), s1)
  else
    match score_response cfg s1 judge now with
    | none => (.error .evaluationUnavailable, s1)
    | some (eval, s2) =>
      if s2.finished then
        (.ok { evaluation := eval, finished := true,
               summary := some s2.summary, next_q := none }, s2)
      else
        let nq := next_question bank s2
        (.ok { evaluation := eval, finished := false,
               summary := none, next_q := nq.1 }, nq.2)

/-- The `/start` handler `start` (`src/backend/app.py` lines 106–131):
create a `SessionState()` with the constructor default `max_questions`
(that call takes no argument, so the handler exposes no way to choose the
value), then fetch the first question; a missing question is the HTTP 500
failure, modelled as `none`. -/
def start (bank : QuestionBank) (now : Nat) :
    Option (SessionState × Question) :=
  match SessionState.init MAX_QUESTIONS now with
  | .error _ => none
  | .ok session =>
    match next_question bank session with
    | (none, _) => none
    | (some q, s2) => some (s2, q)

/-- A concrete policy configuration used in closed instances. -/
def sampleConfig : PolicyConfig :=
  { hi := 4/5, lo := 2/5, wAcc := 7/10, wExp := 3/10, misThreshold := 1/2,
    minDifficulty := 1, maxDifficulty := 5, maxBloom := 6 }

/-- A concrete question bank that always returns the same question. -/
def sampleBank : QuestionBank := fun _ _ _ => some "Q0"

/-- A concrete finished session with a recorded history entry. -/
def finishedSample : SessionState :=
  { max_questions := 15
    bloom_level := 1
    difficulty := 1
    question_number := 16
    current_question := none
    finished := true
    history := [sampleRecord]
    last_misconception := none
    created_at := 0
    last_activity := 0 }

/-- Auxiliary: `SessionState.init` stores the validated `max_questions`. -/
theorem init_ok_max_questions (mq : Int) (now : Nat) (s : SessionState)
    (h : SessionState.init mq now = .ok s) : s.max_questions = mq := by
  unfold SessionState.init at h
  split at h
  · cases h
  · simp only [Except.ok.injEq] at h
    subst h
    rfl

/-- C4: session creation succeeds and stores `max_questions` for every
integer in the inclusive range `[MIN_QUESTIONS, MAX_QUESTIONS]`, and fails
with `InvalidConfiguration` for every integer outside it. -/
theorem init_bounds (mq : Int) (now : Nat) :
    (MIN_QUESTIONS ≤ mq ∧ mq ≤ MAX_QUESTIONS →
       ∃ s, SessionState.init mq now = .ok s ∧ s.max_questions = mq)
    ∧ (¬(MIN_QUESTIONS ≤ mq ∧ mq ≤ MAX_QUESTIONS) →
       SessionState.init mq now = .error .invalidConfiguration) := by
  constructor
  · intro hin
    unfold SessionState.init
    rw [if_neg (not_not_intro hin)]
    exact ⟨_, rfl, rfl⟩
  · intro hout
    unfold SessionState.init
    rw [if_pos hout]

/-- C4 witness: creation succeeds at 10 and fails at 20. -/
theorem init_bounds_witness :
    (∃ s, SessionState.init 10 0 = .ok s ∧ s.max_questions = 10)
      ∧ SessionState.init 20 0
          = .error SessionState.InitError.invalidConfiguration :=
  ⟨(init_bounds 10 0).1 (by decide), (init_bounds 20 0).2 (by decide)⟩

/-- C7: a freshly created session starts with bloom level 1, difficulty 1,
question number 1, not finished, empty history, no current question and no
last misconception. -/
theorem init_defaults (mq : Int) (now : Nat) (s : SessionState)
    (h : SessionState.init mq now = .ok s) :
    s.bloom_level = 1 ∧ s.difficulty = 1 ∧ s.question_number = 1
      ∧ s.finished = false ∧ s.history = [] ∧ s.current_question = none
      ∧ s.last_misconception = none := by
  unfold SessionState.init at h
  split at h
  · cases h
  · simp only [Except.ok.injEq] at h
    subst h
    simp [SessionState.reset]

/-- The session produced by `SessionState.init 15 0`, written out. -/
def freshSample : SessionState :=
  { max_questions := 15
    bloom_level := 1
    difficulty := 1
    question_number := 1
    current_question := none
    finished := false
    history := []
    last_misconception := none
    created_at := 0
    last_activity := 0 }

/-- C7 witness: the defaults theorem instantiated at `init 15 0`. -/
theorem init_defaults_witness :
    SessionState.init 15 0 = .ok freshSample
      ∧ (freshSample.bloom_level = 1 ∧ freshSample.difficulty = 1
          ∧ freshSample.question_number = 1 ∧ freshSample.finished = false
          ∧ freshSample.history = [] ∧ freshSample.current_question = none
          ∧ freshSample.last_misconception = none) :=
  ⟨by decide, init_defaults 15 0 freshSample (by decide)⟩

/-- C6 counterexample: `reset` is an operation on the session record that
removes existing history entries, so "no operation on the session record
ever removes existing history entries" fails at this concrete session. -/
theorem reset_truncates_history :
    sampleSession.history ≠ [] ∧ (sampleSession.reset 9).history = [] :=
  ⟨by decide, rfl⟩

/-- C6 amended: recording an evaluation appends exactly one record at the
end of the history, and `summary` leaves the history untouched; `reset`,
however, reinitializes the session and clears the history. -/
theorem history_append_only (s : SessionState) (e : EvalRecord) (now : Nat) :
    (s.record_evaluation e now).history = s.history ++ [e]
      ∧ (s.summaryOp).2.history = s.history
      ∧ (s.reset now).history = [] := by
  refine ⟨rfl, ?_, rfl⟩
  by_cases h : s.history.isEmpty <;> simp [SessionState.summaryOp, h]

/-- C3 counterexample: submitting to a finished session fails, yet the
handler has already overwritten `last_activity` (line 145 of `app.py` runs
before the validation), so "every field … including `last_activity` … is
left exactly as it was" fails at this concrete session. -/
theorem answer_error_mutates_last_activity :
    (answer sampleConfig sampleBank finishedSample none 1).1
        = .error (.invalidSessionState "Assessment already completed")
      ∧ (answer sampleConfig sampleBank finishedSample none 1).2.last_activity
          ≠ finishedSample.last_activity := by
  constructor
  · rfl
  · decide

/-- C3 amended: whenever the answer handler fails — finished session, no
pending question, or evaluation failure — the resulting session state is
the pre-call state with only `last_activity` set to the call time; every
other field (history, bloom level, difficulty, current question, …) is
unchanged. -/
theorem answer_error_frame (cfg : PolicyConfig) (bank : QuestionBank)
    (s : SessionState) (j : Option JudgeOutput) (now : Nat) (e : AnswerError)
    (h : (answer cfg bank s j now).1 = .error e) :
    (answer cfg bank s j now).2 = { s with last_activity := now } := by
  unfold answer at h ⊢
  by_cases hf : ({ s with last_activity := now } : SessionState).finished = true
  · rw [if_pos hf]
  · rw [if_neg hf] at h ⊢
    by_cases hq :
        ({ s with last_activity := now } : SessionState).current_question.isNone
          = true
    · rw [if_pos hq]
    · rw [if_neg hq] at h ⊢
      cases hsr : score_response cfg { s with last_activity := now } j now with
      | none => rfl
      | some p =>
        rw [hsr] at h
        obtain ⟨eval, s2⟩ := p
        by_cases h2 : s2.finished = true <;> simp [h2] at h

/-- C3 witness: the error-frame theorem instantiated at the finished
sample session. -/
theorem answer_error_frame_witness :
    (answer sampleConfig sampleBank finishedSample none 1).2
      = { finishedSample with last_activity := 1 } :=
  answer_error_frame sampleConfig sampleBank finishedSample none 1
    (.invalidSessionState "Assessment already completed") (by decide)

/-- C5: submitting to a finished session fails with the
`InvalidSessionState` error ("Assessment already completed") and leaves
the history unchanged; submitting with no pending question likewise fails
with an `InvalidSessionState` error, history unchanged. -/
theorem answer_invalid_session_state (cfg : PolicyConfig)
    (bank : QuestionBank) (s : SessionState) (j : Option JudgeOutput)
    (now : Nat) :
    (s.finished = true →
       (answer cfg bank s j now).1
           = .error (.invalidSessionState "Assessment already completed")
         ∧ (answer cfg bank s j now).2.history = s.history)
    ∧ (s.current_question = none →
       (∃ d, (answer cfg bank s j now).1 = .error (.invalidSessionState d))
         ∧ (answer cfg bank s j now).2.history = s.history) := by
  constructor
  · intro hf
    unfold answer
    simp [hf]
  · intro hq
    unfold answer
    by_cases hf : s.finished
    · exact ⟨⟨"Assessment already completed", by simp [hf]⟩, by simp [hf]⟩
    · exact ⟨⟨"No active question", by simp [hf, hq]⟩, by simp [hf, hq]⟩

/-- C5 witness: the invalid-state theorem instantiated at the finished
sample session. -/
theorem answer_invalid_session_state_witness :
    (answer sampleConfig sampleBank finishedSample none 2).1
        = .error (.invalidSessionState "Assessment already completed")
      ∧ (answer sampleConfig sampleBank finishedSample none 2).2.history
          = finishedSample.history :=
  (answer_invalid_session_state sampleConfig sampleBank finishedSample
    none 2).1 (by decide)

/-- Auxiliary: `next_question` never changes `max_questions`. -/
theorem next_question_max_questions (bank : QuestionBank)
    (s : SessionState) :
    ((next_question bank s).2).max_questions = s.max_questions := by
  unfold next_question
  cases bank s.bloom_level s.difficulty s.last_misconception <;> rfl

/-- C9: every session created through the `/start` handler has
`max_questions` equal to the constructor default 15; `start` takes no
`max_questions` input, so the caller cannot choose another value. -/
theorem start_max_questions (bank : QuestionBank) (now : Nat)
    (s : SessionState) (q : Question) (h : start bank now = some (s, q)) :
    s.max_questions = 15 := by
  unfold start at h
  split at h
  · cases h
  · rename_i session hi
    split at h
    · cases h
    · rename_i q0 s2 hnq
      simp only [Option.some.injEq, Prod.mk.injEq] at h
      obtain ⟨hs, _⟩ := h
      have h2 := next_question_max_questions bank session
      rw [hnq] at h2
      have h3 : s2.max_questions = session.max_questions := h2
      rw [← hs, h3, init_ok_max_questions MAX_QUESTIONS now session hi]
      rfl

/-- The session produced by `start sampleBank 0`, written out. -/
def startedSample : SessionState :=
  { max_questions := 15
    bloom_level := 1
    difficulty := 1
    question_number := 2
    current_question := some "Q0"
    finished := false
    history := []
    last_misconception := none
    created_at := 0
    last_activity := 0 }

/-- C9 witness: the start theorem instantiated at the sample bank. -/
theorem start_max_questions_witness :
    start sampleBank 0 = some (startedSample, "Q0")
      ∧ startedSample.max_questions = 15 :=
  ⟨by decide, start_max_questions sampleBank 0 startedSample "Q0" (by decide)⟩
